import Mathlib

/-!
# gincom: engine and server bootstrap

A shallow embedding of `gincom.go`. The package assembles a gin engine from
option records and wraps it in an `http.Server`. Pointer mutation and process
globals are made explicit: every function that touches them takes a `World`
and returns the updated one. A call that can panic returns an `Option`,
`none` standing for the panic. The web framework, the logging library and the
crash reporter are third-party packages; of them only the data the package
itself manipulates is represented (the handler chain, the route table, the
global settings it reads and writes, the log entries it emits).
-/

namespace Gincom

/-! ## Integer formatting (`fmt.Sprintf` with the `%d` verb) -/

/-- The character of a decimal digit. -/
def digitChar (d : Nat) : Char := Char.ofNat (48 + d)

/-- The digit loop of the integer formatter: the last digit of `u` is pushed
in front of the buffer while `u` has more than one digit. -/
def fmtUnsigned : Nat → Nat → List Char → List Char
  | 0, u, buf => digitChar (u % 10) :: buf
  | fuel + 1, u, buf =>
    if u < 10 then digitChar u :: buf
    else fmtUnsigned fuel (u / 10) (digitChar (u % 10) :: buf)

/-- The characters `%d` prints for an integer: the sign when negative, then
the digits of the magnitude. -/
def fmtIntChars (i : Int) : List Char :=
  if i < 0 then Char.ofNat 45 :: fmtUnsigned i.natAbs i.natAbs []
  else fmtUnsigned i.natAbs i.natAbs []

/-- The string `%d` prints for an integer. -/
def fmtInt (i : Int) : String := String.mk (fmtIntChars i)

/-- The value of a character as a decimal digit, if it is one. -/
def digitVal (c : Char) : Option Nat :=
  if 48 ≤ c.toNat ∧ c.toNat ≤ 57 then some (c.toNat - 48) else none

/-- Reads a run of decimal digits, most significant first, onto `acc`. -/
def readDigits : List Char → Nat → Option Nat
  | [], acc => some acc
  | c :: cs, acc =>
    match digitVal c with
    | some d => readDigits cs (10 * acc + d)
    | none => none

/-- Reads a decimal integer: an optional minus sign and at least one digit. -/
def readInt (cs : List Char) : Option Int :=
  match cs with
  | [] => none
  | c :: rest =>
    if c = Char.ofNat 45 then
      match rest with
      | [] => none
      | _ :: _ =>
        match readDigits rest 0 with
        | some n => some (-(Int.ofNat n))
        | none => none
    else
      match readDigits cs 0 with
      | some n => some (Int.ofNat n)
      | none => none

/-! ## Data model -/

/-- The fields of `bugsnag.Configuration` the package names. -/
structure Configuration where
  APIKey : String
  AppVersion : String
  ProjectPackages : List String
  deriving DecidableEq, Repr

structure MiddlewareOptions where
  Coors : Bool
  Recovery : Bool
  Zerolog : Bool
  deriving DecidableEq, Repr

structure EngineOptions where
  BugsnagOptions : Configuration
  MiddlewareOptions : MiddlewareOptions
  ReleaseMode : String
  EnableHealthCheck : Bool
  deriving DecidableEq, Repr

/-- The four middleware values `GinEngine` can hand to `Use`, each with the
argument it was built from. -/
inductive Middleware where
  | requestLogger (skipPaths : List String)
  | recovery
  | crashReporter (cfg : Configuration)
  | cors
  deriving DecidableEq, Repr

/-- The kind of a middleware, forgetting its configuration. -/
inductive Kind where
  | logging
  | recovery
  | crashReporting
  | cors
  deriving DecidableEq, Repr

def Middleware.kind : Middleware → Kind
  | .requestLogger _ => .logging
  | .recovery => .recovery
  | .crashReporter _ => .crashReporting
  | .cors => .cors

/-- A route handler: `c.JSON(code, obj)` for a string-valued `gin.H`. -/
structure Handler where
  code : Nat
  obj : List (String × String)
  deriving DecidableEq, Repr

/-- A registered route: the handlers of the group at registration time,
followed by the route's own handler. -/
structure Route where
  method : String
  path : String
  chain : List Middleware
  handler : Handler
  deriving DecidableEq, Repr

/-- The part of `gin.Engine` the package writes: the handler chain of the root
group and the route table. -/
structure Engine where
  Handlers : List Middleware
  routes : List Route
  deriving DecidableEq, Repr

inductive Level where
  | debug
  | info
  | error
  deriving DecidableEq, Repr

/-- The numeric value the logging library gives a level. -/
def Level.toNat : Level → Nat
  | .debug => 0
  | .info => 1
  | .error => 3

/-- A log event: level, the attached error (`Err(err)`) and the message. -/
structure LogEntry where
  level : Level
  err : Option String
  msg : String
  deriving DecidableEq, Repr

/-- Process-wide state: the environment, the framework mode, the logging
globals and the emitted log. -/
structure World where
  env : List (String × String)
  ginMode : String
  timeFieldFormat : String
  errorStackMarshaler : Bool
  globalLevel : Level
  log : List LogEntry
  deriving DecidableEq, Repr

structure HttpServerOptions where
  Port : Int
  ReadTimeout : Int
  WriteTimeout : Int
  deriving DecidableEq, Repr

/-- The fields of `http.Server` the package sets. -/
structure Server where
  Addr : String
  ReadTimeout : Int
  WriteTimeout : Int
  Handler : Engine
  deriving DecidableEq, Repr

structure Response where
  status : Nat
  body : String
  deriving DecidableEq, Repr

/-! ## Library operations used by the package -/

/-- `os.Getenv`: the value of the variable, empty when it is not set. -/
def Getenv (w : World) (key : String) : String :=
  match w.env.lookup key with
  | some v => v
  | none => ""

/-- Writing an event with the global logger: the event is written when its
level is not below the global level, and dropped otherwise. -/
def World.emit (w : World) (e : LogEntry) : World :=
  if w.globalLevel.toNat ≤ e.level.toNat then { w with log := w.log ++ [e] } else w

/-- `log.Info().Msg(msg)`. -/
def logInfo (w : World) (msg : String) : World :=
  w.emit ⟨Level.info, none, msg⟩

/-- `log.Error().Err(err).Msg(msg)`. -/
def logError (w : World) (err : String) (msg : String) : World :=
  w.emit ⟨Level.error, some err, msg⟩

/-- `gin.ReleaseMode`. -/
def ReleaseMode : String := "release"

/-- `gin.SetMode`: the empty mode selects `debug`; `debug`, `release` and
`test` are recorded in the framework global; on any other string the call
panics, which is the result `none`. -/
def SetMode (w : World) (mode : String) : Option World :=
  if mode = "" ∨ mode = "debug" then some { w with ginMode := "debug" }
  else if mode = "release" then some { w with ginMode := "release" }
  else if mode = "test" then some { w with ginMode := "test" }
  else none

/-- `gin.New`: a bare engine, no middleware and no route. -/
def New : Engine := ⟨[], []⟩

/-- `r.Use(m)`: appends to the handler chain of the root group. -/
def Engine.Use (r : Engine) (m : Middleware) : Engine :=
  { r with Handlers := r.Handlers ++ [m] }

/-- `r.GET(path, h)`: registers the route with the current chain in front. -/
def Engine.GET (r : Engine) (path : String) (h : Handler) : Engine :=
  { r with routes := r.routes ++ [⟨"GET", path, r.Handlers, h⟩] }

/-- A JSON string literal (quote and backslash escaped). -/
def jsonString (s : String) : String :=
  let q := Char.ofNat 34
  let b := Char.ofNat 92
  String.mk ([q] ++ s.toList.flatMap (fun c => if c = q ∨ c = b then [b, c] else [c]) ++ [q])

/-- The members of a JSON object, comma separated. -/
def jsonMembers : List (String × String) → String
  | [] => ""
  | [(k, v)] => jsonString k ++ ":" ++ jsonString v
  | (k, v) :: rest => jsonString k ++ ":" ++ jsonString v ++ "," ++ jsonMembers rest

/-- The rendering of a string-valued object by `c.JSON`. -/
def renderJSON (obj : List (String × String)) : String :=
  "\x7b" ++ jsonMembers obj ++ "\x7d"

/-- The response a handler writes. -/
def Handler.respond (h : Handler) : Response := ⟨h.code, renderJSON h.obj⟩

/-- The route the engine matches for a method and path, if any. -/
def Engine.findRoute (r : Engine) (method path : String) : Option Route :=
  r.routes.find? (fun rt => rt.method = method ∧ rt.path = path)

/-- The engine's answer to a request that no middleware aborts: the matched
route's handler, or the framework's 404 when no route matches. -/
def Engine.serve (r : Engine) (method path : String) : Response :=
  match r.findRoute method path with
  | some rt => rt.handler.respond
  | none => ⟨404, "404 page not found"⟩

/-! ## The package -/

/-- `zerolog.TimeFormatUnix`: the empty format selects unix timestamps. -/
def TimeFormatUnix : String := ""

def DefaultEngineOptions (w : World) : EngineOptions × World :=
  ({ MiddlewareOptions := { Zerolog := true, Coors := true, Recovery := true },
     BugsnagOptions :=
       { APIKey := Getenv w "BUGSNAG_API_KEY",
         AppVersion := Getenv w "API_VERSION",
         ProjectPackages := [] },
     ReleaseMode := ReleaseMode,
     EnableHealthCheck := true }, w)

/-- `GinEngine`. The result is `none` when the call panics, which happens in
`gin.SetMode`, before the router is created. -/
def GinEngine (o : EngineOptions) (w : World) : Option (Engine × World) :=
  match SetMode w o.ReleaseMode with
  | none => none
  | some w =>
  -- create router
  let r := New
  -- setup logging
  let (r, w) :=
    if o.MiddlewareOptions.Zerolog then
      (r.Use (Middleware.requestLogger ["/health"]),
       { w with timeFieldFormat := TimeFormatUnix,
                errorStackMarshaler := true,
                globalLevel := Level.debug })
    else (r, w)
  -- setup recovery
  let r := if o.MiddlewareOptions.Recovery then r.Use Middleware.recovery else r
  -- setup bugsnag
  let (r, w) :=
    if o.BugsnagOptions.APIKey ≠ "" then
      (r.Use (Middleware.crashReporter o.BugsnagOptions), logInfo w "bugsnag enabled")
    else (r, w)
  -- setup coors
  let r := if o.MiddlewareOptions.Coors then r.Use Middleware.cors else r
  -- setup health-check
  let r := if o.EnableHealthCheck then r.GET "/health" ⟨200, [("message", "w00t")]⟩ else r
  some (r, w)

def DefaultGinEngine (w : World) : Option (Engine × World) :=
  let (o, w) := DefaultEngineOptions w
  GinEngine o w

def HttpServer (r : Engine) (o : HttpServerOptions) (w : World) : Server × World :=
  let w := logInfo w ("starting server on port " ++ fmtInt o.Port)
  ({ Addr := ":" ++ fmtInt o.Port,
     ReadTimeout := o.ReadTimeout,
     WriteTimeout := o.WriteTimeout,
     Handler := r }, w)

/-- `time.Second`, in nanoseconds. -/
def Second : Int := 1000000000

def NewHttpServer (r : Engine) (w : World) : Server × World :=
  let opts : HttpServerOptions :=
    { Port := 3141, ReadTimeout := 10 * Second, WriteTimeout := 10 * Second }
  HttpServer r opts w

/-- A call `HttpListen` makes out of the package. -/
inductive Call where
  | callback (e : Engine)
  | listenAndServe (s : Server)
  deriving DecidableEq, Repr

/-- `HttpListen`. The callback receives the engine by pointer, so it returns
the engine it leaves behind; `listen` is `ListenAndServe`, returning the error
it ends with, if any. The calls made are recorded in order. The result is
`none` when building the default engine panics. -/
def HttpListen (f : Engine → World → Engine × World)
    (listen : Server → World → Option String × World) (w : World) :
    Option (List Call × World) :=
  match DefaultGinEngine w with
  | none => none
  | some (e, w) =>
    let calls := [Call.callback e]
    let (e, w) := f e w
    let (s, w) := NewHttpServer e w
    let calls := calls ++ [Call.listenAndServe s]
    match listen s w with
    | (some err, w) => some (calls, logError w err "failed to start gin")
    | (none, w) => some (calls, w)

/-! ## Vocabulary of the statements -/

/-- The kinds of the middleware attached to an engine, in chain order. -/
def Engine.kinds (e : Engine) : List Kind := e.Handlers.map Middleware.kind

/-- The fixed list the specification orders the middleware by. -/
def fixedOrder : List Kind :=
  [Kind.logging, Kind.recovery, Kind.crashReporting, Kind.cors]

/-- Whether the options ask for a middleware kind, in the specification's
words: the three toggles, and a non-empty API key for crash reporting. -/
def selected (o : EngineOptions) : Kind → Bool
  | Kind.logging => o.MiddlewareOptions.Zerolog
  | Kind.recovery => o.MiddlewareOptions.Recovery
  | Kind.crashReporting => decide (o.BugsnagOptions.APIKey ≠ "")
  | Kind.cors => o.MiddlewareOptions.Coors

/-- The position of a kind in the fixed list. -/
def rank : Kind → Nat
  | Kind.logging => 0
  | Kind.recovery => 1
  | Kind.crashReporting => 2
  | Kind.cors => 3

/-- The mode strings `gin.SetMode` accepts. -/
def validModes : List String := ["", "debug", "release", "test"]

/-- The handler of the health-check route. -/
def healthHandler : Handler := ⟨200, [("message", "w00t")]⟩

/-- The body of the health-check answer. -/
def healthBody : String := "\x7b\"message\":\"w00t\"\x7d"

/-- A world with nothing set. -/
def emptyWorld : World := ⟨[], "", "", false, Level.info, []⟩

/-- A world whose environment carries a crash-reporting key. -/
def keyedWorld : World :=
  ⟨[("BUGSNAG_API_KEY", "k3y"), ("API_VERSION", "1.2.3")], "", "", false, Level.info, []⟩

/-- Options with request logging and panic recovery on, the rest off. -/
def loggedRecovered : EngineOptions :=
  { BugsnagOptions := ⟨"", "", []⟩,
    MiddlewareOptions := { Coors := false, Recovery := true, Zerolog := true },
    ReleaseMode := "debug",
    EnableHealthCheck := false }

/-- Options with every middleware on and a crash-reporting key. -/
def everythingOn : EngineOptions :=
  { BugsnagOptions := ⟨"k3y", "1.2.3", ["main"]⟩,
    MiddlewareOptions := { Coors := true, Recovery := true, Zerolog := true },
    ReleaseMode := "release",
    EnableHealthCheck := true }

/-- The options `everythingOn` with a mode string the framework rejects. -/
def bogusMode : EngineOptions := { everythingOn with ReleaseMode := "bogus" }

/-- A world whose global log level is `error`. -/
def quietWorld : World := ⟨[], "", "", false, Level.error, []⟩

/-- The engine `GinEngine` builds from `loggedRecovered`. -/
def loggedRecoveredEngine : Engine :=
  ⟨[Middleware.requestLogger ["/health"], Middleware.recovery], []⟩

/-! ## Integer formatting: auxiliary facts -/

theorem digitVal_digitChar (d : Nat) (h : d < 10) : digitVal (digitChar d) = some d := by
  interval_cases d <;> decide

theorem digitChar_ne_minus (d : Nat) (h : d < 10) : digitChar d ≠ Char.ofNat 45 := by
  interval_cases d <;> decide

theorem fmtUnsigned_append (fuel : Nat) :
    ∀ (u : Nat) (buf : List Char), fmtUnsigned fuel u buf = fmtUnsigned fuel u [] ++ buf := by
  induction fuel with
  | zero => intro u buf; simp [fmtUnsigned]
  | succ n ih =>
    intro u buf
    unfold fmtUnsigned
    by_cases h : u < 10
    · simp [h]
    · simp only [h, if_false]
      rw [ih (u / 10) (digitChar (u % 10) :: buf), ih (u / 10) [digitChar (u % 10)]]
      simp

theorem readDigits_append_singleton (cs : List Char) (c : Char) (d : Nat)
    (hd : digitVal c = some d) :
    ∀ (acc n : Nat), readDigits cs acc = some n →
      readDigits (cs ++ [c]) acc = some (10 * n + d) := by
  induction cs with
  | nil =>
    intro acc n h
    simp only [readDigits, Option.some.injEq] at h
    simp [readDigits, hd, h]
  | cons x xs ih =>
    intro acc n h
    simp only [List.cons_append, readDigits]
    cases hx : digitVal x with
    | none => simp [readDigits, hx] at h
    | some v =>
      simp only [readDigits, hx] at h
      exact ih _ _ h

theorem readDigits_fmtUnsigned (fuel : Nat) :
    ∀ u : Nat, u ≤ fuel → readDigits (fmtUnsigned fuel u []) 0 = some u := by
  induction fuel with
  | zero =>
    intro u hu
    have h0 : u = 0 := Nat.le_zero.mp hu
    subst h0
    decide
  | succ n ih =>
    intro u hu
    unfold fmtUnsigned
    by_cases h : u < 10
    · simp [h, readDigits, digitVal_digitChar u h]
    · simp only [h, if_false]
      rw [fmtUnsigned_append]
      have hle : u / 10 ≤ n := by omega
      have hmod : u % 10 < 10 := Nat.mod_lt _ (by decide)
      have := readDigits_append_singleton (fmtUnsigned n (u / 10) []) (digitChar (u % 10))
        (u % 10) (digitVal_digitChar _ hmod) 0 (u / 10) (ih _ hle)
      rw [this]
      congr 1
      omega

theorem fmtUnsigned_head (fuel : Nat) :
    ∀ (u : Nat) (buf : List Char),
      ∃ d rest, d < 10 ∧ fmtUnsigned fuel u buf = digitChar d :: rest := by
  induction fuel with
  | zero =>
    intro u buf
    exact ⟨u % 10, buf, Nat.mod_lt _ (by decide), rfl⟩
  | succ n ih =>
    intro u buf
    unfold fmtUnsigned
    by_cases h : u < 10
    · exact ⟨u, buf, h, by simp [h]⟩
    · simp only [h, if_false]
      exact ih _ _

theorem readInt_fmtIntChars (i : Int) : readInt (fmtIntChars i) = some i := by
  unfold fmtIntChars
  have hr := readDigits_fmtUnsigned i.natAbs i.natAbs (le_refl _)
  obtain ⟨d, rest, hd, hrest⟩ := fmtUnsigned_head i.natAbs i.natAbs []
  by_cases hneg : i < 0
  · simp only [hneg, if_true, readInt]
    rw [hrest] at hr ⊢
    simp only [hr, Option.some.injEq, Int.ofNat_eq_coe]
    omega
  · simp only [hneg, if_false]
    rw [hrest] at hr ⊢
    simp only [readInt, digitChar_ne_minus d hd, if_false, hr, Option.some.injEq,
      Int.ofNat_eq_coe]
    omega

/-! ## The engine builder: auxiliary facts -/

theorem SetMode_isSome (w : World) (mode : String) (h : mode ∈ validModes) :
    ∃ w1, SetMode w mode = some w1 := by
  simp only [validModes, List.mem_cons, List.mem_singleton, List.not_mem_nil, or_false] at h
  rcases h with h | h | h | h <;> subst h <;> simp [SetMode]

theorem SetMode_none (w : World) (mode : String) (h : mode ∉ validModes) :
    SetMode w mode = none := by
  simp only [validModes, List.mem_cons, List.mem_singleton, List.not_mem_nil, or_false,
    not_or] at h
  simp [SetMode, h.1, h.2.1, h.2.2.1, h.2.2.2]

theorem GinEngine_isSome (o : EngineOptions) (w : World) (h : o.ReleaseMode ∈ validModes) :
    ∃ e w1, GinEngine o w = some (e, w1) := by
  obtain ⟨w0, h0⟩ := SetMode_isSome w o.ReleaseMode h
  unfold GinEngine
  rw [h0]
  exact ⟨_, _, rfl⟩

theorem GinEngine_none (o : EngineOptions) (w : World) (h : o.ReleaseMode ∉ validModes) :
    GinEngine o w = none := by
  unfold GinEngine
  rw [SetMode_none w o.ReleaseMode h]

theorem GinEngine_Handlers (o : EngineOptions) (w : World) (e : Engine) (w1 : World)
    (h : GinEngine o w = some (e, w1)) :
    e.Handlers =
      (if o.MiddlewareOptions.Zerolog then [Middleware.requestLogger ["/health"]] else [])
      ++ (if o.MiddlewareOptions.Recovery then [Middleware.recovery] else [])
      ++ (if o.BugsnagOptions.APIKey ≠ "" then [Middleware.crashReporter o.BugsnagOptions]
          else [])
      ++ (if o.MiddlewareOptions.Coors then [Middleware.cors] else []) := by
  obtain ⟨⟨key, ver, pk⟩, ⟨c, r, z⟩, mode, hc⟩ := o
  unfold GinEngine at h
  cases hs : SetMode w mode with
  | none => simp [hs] at h
  | some w0 =>
    simp only [hs] at h
    by_cases hk : key = "" <;> cases c <;> cases r <;> cases z <;> cases hc <;>
      simp [New, Engine.Use, Engine.GET, hk] at h <;>
      obtain ⟨he, -⟩ := h <;> subst he <;> simp [hk]

theorem GinEngine_routes (o : EngineOptions) (w : World) (e : Engine) (w1 : World)
    (h : GinEngine o w = some (e, w1)) :
    e.routes =
      if o.EnableHealthCheck then [⟨"GET", "/health", e.Handlers, healthHandler⟩]
      else [] := by
  obtain ⟨⟨key, ver, pk⟩, ⟨c, r, z⟩, mode, hc⟩ := o
  unfold GinEngine at h
  cases hs : SetMode w mode with
  | none => simp [hs] at h
  | some w0 =>
    simp only [hs] at h
    by_cases hk : key = "" <;> cases c <;> cases r <;> cases z <;> cases hc <;>
      simp [New, Engine.Use, Engine.GET, hk] at h <;>
      obtain ⟨he, -⟩ := h <;> subst he <;> simp [healthHandler]

theorem GinEngine_kinds (o : EngineOptions) (w : World) (e : Engine) (w1 : World)
    (h : GinEngine o w = some (e, w1)) :
    e.kinds = fixedOrder.filter (selected o) := by
  unfold Engine.kinds
  rw [GinEngine_Handlers o w e w1 h]
  obtain ⟨⟨key, ver, pk⟩, ⟨c, r, z⟩, mode, hc⟩ := o
  by_cases hk : key = "" <;> cases c <;> cases r <;> cases z <;>
    simp [fixedOrder, selected, Middleware.kind, hk]

theorem healthHandler_respond : healthHandler.respond = ⟨200, healthBody⟩ := by decide

theorem serve_health_of_GinEngine (o : EngineOptions) (w : World) (e : Engine) (w1 : World)
    (h : GinEngine o w = some (e, w1)) :
    e.serve "GET" "/health" =
      (if o.EnableHealthCheck then ⟨200, healthBody⟩ else ⟨404, "404 page not found"⟩) := by
  unfold Engine.serve Engine.findRoute
  rw [GinEngine_routes o w e w1 h]
  cases o.EnableHealthCheck
  · simp
  · simp [healthHandler_respond]

theorem logError_appends (w : World) (err msg : String) :
    logError w err msg = { w with log := w.log ++ [⟨Level.error, some err, msg⟩] } := by
  unfold logError World.emit
  cases hl : w.globalLevel <;> simp [Level.toNat]

/-! ## The engine builder -/

/-- C1, as stated, fails: with the mode string `bogus` the request-logging
toggle is on, yet `GinEngine` panics in `gin.SetMode` and returns no engine,
so no middleware is attached. -/
theorem no_middleware_on_unknown_mode :
    bogusMode.MiddlewareOptions.Zerolog = true
    ∧ GinEngine bogusMode emptyWorld = none
    ∧ ¬ ∃ r, GinEngine bogusMode emptyWorld = some r ∧ Kind.logging ∈ r.1.kinds := by
  have h : GinEngine bogusMode emptyWorld = none := by decide
  exact ⟨rfl, h, by simp [h]⟩

/-- C1, amended: when the release mode is one `gin.SetMode` accepts (empty,
`debug`, `release` or `test`), `GinEngine` returns an engine whose middleware
is exactly the enabled set. Request logging, panic recovery and CORS are each
in the chain if and only if their toggle is on, each at most once, and leaving
crash reporting aside the chain holds the toggled middleware and nothing
else. The health-check flag plays no part. -/
theorem GinEngine_attaches_enabled_set (o : EngineOptions) (w : World)
    (hm : o.ReleaseMode ∈ validModes) :
    ∃ e w1, GinEngine o w = some (e, w1)
    ∧ (Kind.logging ∈ e.kinds ↔ o.MiddlewareOptions.Zerolog = true)
    ∧ (Kind.recovery ∈ e.kinds ↔ o.MiddlewareOptions.Recovery = true)
    ∧ (Kind.cors ∈ e.kinds ↔ o.MiddlewareOptions.Coors = true)
    ∧ e.kinds.count Kind.logging ≤ 1
    ∧ e.kinds.count Kind.recovery ≤ 1
    ∧ e.kinds.count Kind.cors ≤ 1
    ∧ e.Handlers.filter (fun m => decide (m.kind ≠ Kind.crashReporting)) =
        (if o.MiddlewareOptions.Zerolog then [Middleware.requestLogger ["/health"]] else [])
        ++ (if o.MiddlewareOptions.Recovery then [Middleware.recovery] else [])
        ++ (if o.MiddlewareOptions.Coors then [Middleware.cors] else []) := by
  obtain ⟨e, w1, he⟩ := GinEngine_isSome o w hm
  refine ⟨e, w1, he, ?_⟩
  rw [GinEngine_kinds o w e w1 he, GinEngine_Handlers o w e w1 he]
  obtain ⟨⟨key, ver, pk⟩, ⟨c, r, z⟩, mode, hc⟩ := o
  by_cases hk : key = "" <;> cases c <;> cases r <;> cases z <;>
    simp [fixedOrder, selected, Middleware.kind, hk]

/-- The enabled set at `loggedRecovered`, whose mode is `debug`. -/
theorem GinEngine_attaches_enabled_set_witness :
    ∃ e w1, GinEngine loggedRecovered emptyWorld = some (e, w1)
    ∧ (Kind.logging ∈ e.kinds ↔ loggedRecovered.MiddlewareOptions.Zerolog = true)
    ∧ (Kind.recovery ∈ e.kinds ↔ loggedRecovered.MiddlewareOptions.Recovery = true)
    ∧ (Kind.cors ∈ e.kinds ↔ loggedRecovered.MiddlewareOptions.Coors = true)
    ∧ e.kinds.count Kind.logging ≤ 1
    ∧ e.kinds.count Kind.recovery ≤ 1
    ∧ e.kinds.count Kind.cors ≤ 1
    ∧ e.Handlers.filter (fun m => decide (m.kind ≠ Kind.crashReporting)) =
        (if loggedRecovered.MiddlewareOptions.Zerolog then
           [Middleware.requestLogger ["/health"]] else [])
        ++ (if loggedRecovered.MiddlewareOptions.Recovery then [Middleware.recovery] else [])
        ++ (if loggedRecovered.MiddlewareOptions.Coors then [Middleware.cors] else []) :=
  GinEngine_attaches_enabled_set loggedRecovered emptyWorld (by decide)

/-- C2, as stated, fails: with the mode string `bogus` the API key is not
empty, yet `GinEngine` returns no engine, so crash reporting is not
attached. -/
theorem no_crash_reporting_on_unknown_mode :
    bogusMode.BugsnagOptions.APIKey ≠ ""
    ∧ GinEngine bogusMode emptyWorld = none
    ∧ ¬ ∃ r, GinEngine bogusMode emptyWorld = some r ∧ Kind.crashReporting ∈ r.1.kinds := by
  have h : GinEngine bogusMode emptyWorld = none := by decide
  exact ⟨by decide, h, by simp [h]⟩

/-- C2, amended: when the release mode is one `gin.SetMode` accepts,
`GinEngine` returns an engine to which the crash-reporting middleware is
attached if and only if the API key is not empty, whatever the other options,
at most once, and when attached it is the one built from exactly the supplied
configuration. -/
theorem GinEngine_crash_reporting_iff_key (o : EngineOptions) (w : World)
    (hm : o.ReleaseMode ∈ validModes) :
    ∃ e w1, GinEngine o w = some (e, w1)
    ∧ (Kind.crashReporting ∈ e.kinds ↔ o.BugsnagOptions.APIKey ≠ "")
    ∧ e.Handlers.filter (fun m => decide (m.kind = Kind.crashReporting)) =
        (if o.BugsnagOptions.APIKey ≠ "" then [Middleware.crashReporter o.BugsnagOptions]
         else []) := by
  obtain ⟨e, w1, he⟩ := GinEngine_isSome o w hm
  refine ⟨e, w1, he, ?_⟩
  rw [GinEngine_kinds o w e w1 he, GinEngine_Handlers o w e w1 he]
  obtain ⟨⟨key, ver, pk⟩, ⟨c, r, z⟩, mode, hc⟩ := o
  by_cases hk : key = "" <;> cases c <;> cases r <;> cases z <;>
    simp [fixedOrder, selected, Middleware.kind, hk]

/-- Crash reporting at `everythingOn`, whose mode is `release`. -/
theorem GinEngine_crash_reporting_iff_key_witness :
    ∃ e w1, GinEngine everythingOn emptyWorld = some (e, w1)
    ∧ (Kind.crashReporting ∈ e.kinds ↔ everythingOn.BugsnagOptions.APIKey ≠ "")
    ∧ e.Handlers.filter (fun m => decide (m.kind = Kind.crashReporting)) =
        (if everythingOn.BugsnagOptions.APIKey ≠ "" then
           [Middleware.crashReporter everythingOn.BugsnagOptions]
         else []) :=
  GinEngine_crash_reporting_iff_key everythingOn emptyWorld (by decide)

/-- C3, as stated, fails: with the mode string `bogus` the health check is
enabled, yet `GinEngine` returns no engine, so there is no `GET /health` route
to answer with 200. -/
theorem no_health_route_on_unknown_mode :
    bogusMode.EnableHealthCheck = true
    ∧ GinEngine bogusMode emptyWorld = none
    ∧ ¬ ∃ r, GinEngine bogusMode emptyWorld = some r
        ∧ r.1.serve "GET" "/health" = ⟨200, healthBody⟩ := by
  have h : GinEngine bogusMode emptyWorld = none := by decide
  exact ⟨rfl, h, by simp [h]⟩

/-- C3, amended: when the release mode is one `gin.SetMode` accepts,
`GinEngine` returns an engine that, with the health check enabled, has exactly
the route `GET /health`, wrapped by the whole chain, and answers it with 200
and the body `healthBody`; with it disabled the engine has no route and
answers `GET /health` with 404. The answer depends on no other option. -/
theorem GinEngine_health_check (o : EngineOptions) (w : World)
    (hm : o.ReleaseMode ∈ validModes) :
    ∃ e w1, GinEngine o w = some (e, w1)
    ∧ e.routes =
        (if o.EnableHealthCheck then
           [⟨"GET", "/health", e.Handlers, ⟨200, [("message", "w00t")]⟩⟩]
         else [])
    ∧ e.serve "GET" "/health" =
        (if o.EnableHealthCheck then ⟨200, healthBody⟩ else ⟨404, "404 page not found"⟩) := by
  obtain ⟨e, w1, he⟩ := GinEngine_isSome o w hm
  exact ⟨e, w1, he, GinEngine_routes o w e w1 he, serve_health_of_GinEngine o w e w1 he⟩

/-- The health check at `everythingOn`, whose mode is `release`. -/
theorem GinEngine_health_check_witness :
    ∃ e w1, GinEngine everythingOn emptyWorld = some (e, w1)
    ∧ e.routes =
        (if everythingOn.EnableHealthCheck then
           [⟨"GET", "/health", e.Handlers, ⟨200, [("message", "w00t")]⟩⟩]
         else [])
    ∧ e.serve "GET" "/health" =
        (if everythingOn.EnableHealthCheck then ⟨200, healthBody⟩
         else ⟨404, "404 page not found"⟩) :=
  GinEngine_health_check everythingOn emptyWorld (by decide)

/-- C4, as stated, fails: with request logging and panic recovery both on, the
recovery middleware is attached and the chain starts with request logging. -/
theorem recovery_not_first_when_logging :
    ∃ e w1, GinEngine loggedRecovered emptyWorld = some (e, w1)
    ∧ Kind.recovery ∈ e.kinds
    ∧ e.kinds.head? = some Kind.logging
    ∧ e.kinds.head? ≠ some Kind.recovery :=
  ⟨loggedRecoveredEngine, ⟨[], "debug", "", true, Level.debug, []⟩,
    by decide, by decide, by decide, by decide⟩

/-- C4, amended: when panic recovery is attached, the chain is the
request-logging middleware if its toggle is on, then recovery, then the rest,
and the rest holds neither recovery nor request logging. So recovery precedes
crash reporting and CORS, and it is first exactly when request logging is
off. -/
theorem GinEngine_recovery_position (o : EngineOptions) (w : World) (e : Engine) (w1 : World)
    (he : GinEngine o w = some (e, w1)) (h : Kind.recovery ∈ e.kinds) :
    ∃ rest : List Kind,
      e.kinds =
        (if o.MiddlewareOptions.Zerolog then [Kind.logging] else []) ++ Kind.recovery :: rest
      ∧ Kind.recovery ∉ rest ∧ Kind.logging ∉ rest
      ∧ (e.kinds.head? = some Kind.recovery ↔ o.MiddlewareOptions.Zerolog = false) := by
  rw [GinEngine_kinds o w e w1 he] at h ⊢
  obtain ⟨⟨key, ver, pk⟩, ⟨c, r, z⟩, mode, hc⟩ := o
  refine ⟨[Kind.crashReporting, Kind.cors].filter
    (selected ⟨⟨key, ver, pk⟩, ⟨c, r, z⟩, mode, hc⟩), ?_⟩
  by_cases hk : key = "" <;> cases c <;> cases r <;> cases z <;>
    simp [fixedOrder, selected, hk] at h ⊢

/-- The position of recovery at `loggedRecovered`, where it is attached. -/
theorem GinEngine_recovery_position_witness :
    ∃ rest : List Kind,
      loggedRecoveredEngine.kinds =
        (if loggedRecovered.MiddlewareOptions.Zerolog then [Kind.logging] else [])
          ++ Kind.recovery :: rest
      ∧ Kind.recovery ∉ rest ∧ Kind.logging ∉ rest
      ∧ (loggedRecoveredEngine.kinds.head? = some Kind.recovery ↔
          loggedRecovered.MiddlewareOptions.Zerolog = false) :=
  GinEngine_recovery_position loggedRecovered emptyWorld loggedRecoveredEngine
    ⟨[], "debug", "", true, Level.debug, []⟩ (by decide) (by decide)

/-- C5, as stated, fails: with the mode string `bogus` the options select all
four kinds of the fixed list, yet `GinEngine` returns no engine and so no
chain. -/
theorem no_chain_on_unknown_mode :
    fixedOrder.filter (selected bogusMode) = fixedOrder
    ∧ GinEngine bogusMode emptyWorld = none
    ∧ ¬ ∃ r, GinEngine bogusMode emptyWorld = some r
        ∧ r.1.kinds = fixedOrder.filter (selected bogusMode) := by
  have h : GinEngine bogusMode emptyWorld = none := by decide
  exact ⟨by decide, h, by simp [h]⟩

/-- C5, amended: when the release mode is one `gin.SetMode` accepts,
`GinEngine` returns an engine whose chain is the sub-list of the fixed list
logging, recovery, crash reporting, CORS that the options select; it is
increasing for the fixed order, so of any two attached kinds the earlier in
the fixed list comes first. -/
theorem GinEngine_chain_is_selected_sublist (o : EngineOptions) (w : World)
    (hm : o.ReleaseMode ∈ validModes) :
    ∃ e w1, GinEngine o w = some (e, w1)
    ∧ e.kinds = fixedOrder.filter (selected o)
    ∧ e.kinds.Sublist fixedOrder
    ∧ e.kinds.Pairwise (fun a b => rank a < rank b) := by
  obtain ⟨e, w1, he⟩ := GinEngine_isSome o w hm
  refine ⟨e, w1, he, ?_⟩
  rw [GinEngine_kinds o w e w1 he]
  refine ⟨rfl, List.filter_sublist _, ?_⟩
  apply List.Pairwise.sublist (List.filter_sublist _)
  decide

/-- The chain at `everythingOn`, whose mode is `release`. -/
theorem GinEngine_chain_is_selected_sublist_witness :
    ∃ e w1, GinEngine everythingOn emptyWorld = some (e, w1)
    ∧ e.kinds = fixedOrder.filter (selected everythingOn)
    ∧ e.kinds.Sublist fixedOrder
    ∧ e.kinds.Pairwise (fun a b => rank a < rank b) :=
  GinEngine_chain_is_selected_sublist everythingOn emptyWorld (by decide)

/-! ## Default options and the default engine -/

/-- C6: in every environment the default options have the three middleware
toggles and the health check on, the release mode `release`, the API key and
the application version read from `BUGSNAG_API_KEY` and `API_VERSION` (empty
when unset), and the world is returned as it was. -/
theorem DefaultEngineOptions_values (w : World) :
    (DefaultEngineOptions w).1.MiddlewareOptions.Zerolog = true
    ∧ (DefaultEngineOptions w).1.MiddlewareOptions.Coors = true
    ∧ (DefaultEngineOptions w).1.MiddlewareOptions.Recovery = true
    ∧ (DefaultEngineOptions w).1.EnableHealthCheck = true
    ∧ (DefaultEngineOptions w).1.ReleaseMode = "release"
    ∧ (DefaultEngineOptions w).1.BugsnagOptions.APIKey =
        (w.env.lookup "BUGSNAG_API_KEY").getD ""
    ∧ (DefaultEngineOptions w).1.BugsnagOptions.AppVersion =
        (w.env.lookup "API_VERSION").getD ""
    ∧ (DefaultEngineOptions w).2 = w := by
  refine ⟨rfl, rfl, rfl, rfl, rfl, ?_, ?_, rfl⟩
  · show Getenv w "BUGSNAG_API_KEY" = _
    unfold Getenv
    cases w.env.lookup "BUGSNAG_API_KEY" <;> rfl
  · show Getenv w "API_VERSION" = _
    unfold Getenv
    cases w.env.lookup "API_VERSION" <;> rfl

theorem DefaultGinEngine_isSome (w : World) :
    ∃ e w1, DefaultGinEngine w = some (e, w1)
      ∧ GinEngine (DefaultEngineOptions w).1 w = some (e, w1) := by
  have hm : (DefaultEngineOptions w).1.ReleaseMode ∈ validModes := by
    show ReleaseMode ∈ validModes
    decide
  obtain ⟨e, w1, he⟩ := GinEngine_isSome (DefaultEngineOptions w).1 w hm
  exact ⟨e, w1, he, he⟩

/-- C9: when `BUGSNAG_API_KEY` and `API_VERSION` are unset the default engine
has the chain request logging, panic recovery, CORS, without crash reporting,
and answers `GET /health` with 200 and the body `healthBody`; when
`BUGSNAG_API_KEY` is set to a non-empty string the default engine has crash
reporting attached. In both cases `DefaultGinEngine` returns an engine. -/
theorem DefaultGinEngine_scenario (w : World) :
    (w.env.lookup "BUGSNAG_API_KEY" = none → w.env.lookup "API_VERSION" = none →
      ∃ e w1, DefaultGinEngine w = some (e, w1)
      ∧ e.Handlers =
          [Middleware.requestLogger ["/health"], Middleware.recovery, Middleware.cors]
      ∧ Kind.crashReporting ∉ e.kinds
      ∧ e.serve "GET" "/health" = ⟨200, healthBody⟩)
    ∧ (∀ k : String, w.env.lookup "BUGSNAG_API_KEY" = some k → k ≠ "" →
        ∃ e w1, DefaultGinEngine w = some (e, w1) ∧ Kind.crashReporting ∈ e.kinds) := by
  obtain ⟨e, w1, hd, he⟩ := DefaultGinEngine_isSome w
  have hserve : e.serve "GET" "/health" = ⟨200, healthBody⟩ := by
    rw [serve_health_of_GinEngine _ w e w1 he]
    rfl
  constructor
  · intro h1 _
    have hkey : (DefaultEngineOptions w).1.BugsnagOptions.APIKey = "" := by
      show Getenv w "BUGSNAG_API_KEY" = ""
      simp [Getenv, h1]
    refine ⟨e, w1, hd, ?_, ?_, hserve⟩
    · rw [GinEngine_Handlers _ w e w1 he]
      simp [hkey]
      simp [DefaultEngineOptions]
    · rw [GinEngine_kinds _ w e w1 he]
      simp [fixedOrder, selected, hkey]
  · intro k h1 hk
    have hkey : (DefaultEngineOptions w).1.BugsnagOptions.APIKey = k := by
      show Getenv w "BUGSNAG_API_KEY" = k
      simp [Getenv, h1]
    refine ⟨e, w1, hd, ?_⟩
    rw [GinEngine_kinds _ w e w1 he]
    simp [fixedOrder, selected, hkey, hk]

/-- The default engine in an empty environment and in one with a key. -/
theorem DefaultGinEngine_scenario_witness :
    (∃ e w1, DefaultGinEngine emptyWorld = some (e, w1)
      ∧ e.Handlers =
          [Middleware.requestLogger ["/health"], Middleware.recovery, Middleware.cors]
      ∧ Kind.crashReporting ∉ e.kinds
      ∧ e.serve "GET" "/health" = ⟨200, healthBody⟩)
    ∧ (∃ e w1, DefaultGinEngine keyedWorld = some (e, w1) ∧ Kind.crashReporting ∈ e.kinds) :=
  ⟨(DefaultGinEngine_scenario emptyWorld).1 (by decide) (by decide),
   (DefaultGinEngine_scenario keyedWorld).2 "k3y" (by decide) (by decide)⟩

/-! ## The server builder -/

/-- C7, as stated, fails: when the global log level is `error` the info event
is dropped, so `HttpServer` returns the server without logging a startup
message. -/
theorem no_startup_message_when_level_error :
    (HttpServer New ⟨8080, 0, 0⟩ quietWorld).1.Addr = ":8080"
    ∧ (HttpServer New ⟨8080, 0, 0⟩ quietWorld).2.log = []
    ∧ (HttpServer New ⟨8080, 0, 0⟩ quietWorld).2 = quietWorld := by
  decide

/-- C7, amended: for every engine, port and pair of timeouts, `HttpServer`
returns a server whose address is a colon followed by the decimal form of the
port (it reads back as the port), whose timeouts are the given ones and whose
handler is the engine as given. When the global log level admits info events
the world changes only by one info entry appended to the log,
`starting server on port` followed by the decimal port; when the global level
is above info nothing is logged and the world is unchanged. -/
theorem HttpServer_fields (r : Engine) (o : HttpServerOptions) (w : World) :
    (HttpServer r o w).1.Addr = ":" ++ fmtInt o.Port
    ∧ (∃ ds : List Char,
        (HttpServer r o w).1.Addr.toList = Char.ofNat 58 :: ds ∧ readInt ds = some o.Port)
    ∧ (HttpServer r o w).1.ReadTimeout = o.ReadTimeout
    ∧ (HttpServer r o w).1.WriteTimeout = o.WriteTimeout
    ∧ (HttpServer r o w).1.Handler = r
    ∧ (HttpServer r o w).2 =
        (if w.globalLevel.toNat ≤ Level.info.toNat then
          { w with log := w.log ++
              [⟨Level.info, none, "starting server on port " ++ fmtInt o.Port⟩] }
         else w)
    ∧ (∃ ds : List Char,
        ("starting server on port " ++ fmtInt o.Port).toList =
          "starting server on port ".toList ++ ds ∧ readInt ds = some o.Port) := by
  refine ⟨rfl, ⟨fmtIntChars o.Port, ?_, readInt_fmtIntChars _⟩, rfl, rfl, rfl, rfl,
    ⟨fmtIntChars o.Port, ?_, readInt_fmtIntChars _⟩⟩
  · show (":" ++ fmtInt o.Port).toList = _
    simp [fmtInt]
  · simp [fmtInt]

/-- C8: `NewHttpServer` is `HttpServer` at port 3141 with ten-second read and
write timeouts: the address is `:3141`, both timeouts are 10 * 10^9
nanoseconds and the handler is the engine given. -/
theorem NewHttpServer_defaults (r : Engine) (w : World) :
    NewHttpServer r w = HttpServer r ⟨3141, 10 * Second, 10 * Second⟩ w
    ∧ (NewHttpServer r w).1.Addr = ":3141"
    ∧ (NewHttpServer r w).1.ReadTimeout = 10 * 10 ^ 9
    ∧ (NewHttpServer r w).1.WriteTimeout = 10 * 10 ^ 9
    ∧ (NewHttpServer r w).1.Handler = r := by
  refine ⟨rfl, ?_, ?_, ?_, rfl⟩
  · show ":" ++ fmtInt 3141 = ":3141"
    decide
  · show 10 * Second = 10 * 10 ^ 9
    decide
  · show 10 * Second = 10 * 10 ^ 9
    decide

/-! ## The listen helper -/

/-- C10: `HttpListen` builds the default engine and then makes exactly two
calls out of the package, in this order: the callback, on the engine of
`DefaultGinEngine`, then `ListenAndServe`, once, on `NewHttpServer` of the
engine the callback left, whose handler is that engine. When the listener ends
with an error the final world is the listener's with exactly one error entry
carrying that error appended to the log; otherwise it is the listener's world
unchanged. -/
theorem HttpListen_sequence (f : Engine → World → Engine × World)
    (listen : Server → World → Option String × World) (w : World) :
    ∃ e0 w0, DefaultGinEngine w = some (e0, w0)
    ∧ (HttpListen f listen w).map Prod.fst =
        some [Call.callback e0,
              Call.listenAndServe (NewHttpServer (f e0 w0).1 (f e0 w0).2).1]
    ∧ (NewHttpServer (f e0 w0).1 (f e0 w0).2).1.Handler = (f e0 w0).1
    ∧ (HttpListen f listen w).map Prod.snd =
        some (match (listen (NewHttpServer (f e0 w0).1 (f e0 w0).2).1
                (NewHttpServer (f e0 w0).1 (f e0 w0).2).2) with
         | (some err, w3) =>
           { w3 with log := w3.log ++ [⟨Level.error, some err, "failed to start gin"⟩] }
         | (none, w3) => w3) := by
  obtain ⟨e0, w0, hd, -⟩ := DefaultGinEngine_isSome w
  refine ⟨e0, w0, hd, ?_, rfl, ?_⟩
  · unfold HttpListen
    simp only [hd]
    split <;> rfl
  · unfold HttpListen
    simp only [hd]
    split <;> simp_all [logError_appends]

end Gincom
